import Mathlib

/-!
Verification development for the MortApps Studios snake game
(src/Games/src/app/page.tsx and the AI route handler).

The definitions below are a shallow embedding of the game code:
grid coordinates are modelled as integers, the per-tick update of the
setInterval callback becomes the pure function `tick`, the rejection
sampling of `generateFood` is modelled over an explicit stream of random
samples, and the POST route of the AI endpoint becomes `postRoute`
parametrised by an oracle standing for the chat-completion call.
-/

namespace Snake

/-- Grid side length, from the constant GRID_SIZE = 20. -/
def GRID_SIZE : Int := 20

/-- Initial tick interval in milliseconds, from INITIAL_SPEED = 150. -/
def INITIAL_SPEED : Int := 150

/-- Speed decrement per food eaten, from SPEED_INCREMENT = 5. -/
def SPEED_INCREMENT : Int := 5

/-- Minimum tick interval, from MIN_SPEED = 50. -/
def MIN_SPEED : Int := 50

/-- Cell coordinate pair, from the Position interface. -/
structure Position where
  x : Int
  y : Int
deriving DecidableEq, Inhabited, Repr

/-- Movement direction, from the Direction union type. -/
inductive Direction where
  | UP
  | DOWN
  | LEFT
  | RIGHT
deriving DecidableEq, Repr

/-- Top-level game state, from the GameState union type. -/
inductive GameState where
  | menu
  | playing
  | paused
  | gameover
deriving DecidableEq, Repr

/-- Reverse direction, from the opposites record in handleDirectionButton. -/
def opposite : Direction → Direction
  | Direction.UP => Direction.DOWN
  | Direction.DOWN => Direction.UP
  | Direction.LEFT => Direction.RIGHT
  | Direction.RIGHT => Direction.LEFT

/-- New head position, from the switch on currentDirection in the game
loop (head.y -= 1 for UP, head.y += 1 for DOWN, head.x -= 1 for LEFT,
head.x += 1 for RIGHT). -/
def moveHead (d : Direction) (p : Position) : Position :=
  match d with
  | Direction.UP => { p with y := p.y - 1 }
  | Direction.DOWN => { p with y := p.y + 1 }
  | Direction.LEFT => { p with x := p.x - 1 }
  | Direction.RIGHT => { p with x := p.x + 1 }

/-- Membership of a cell in a segment list, from the pattern
`arr.some(segment => segment.x === p.x && segment.y === p.y)` used both
by generateFood and by the self-collision check. -/
def occupies (snake : List Position) (p : Position) : Bool :=
  snake.any fun segment => segment.x == p.x && segment.y == p.y

/-- Wall test, from the check
`head.x < 0 || head.x >= GRID_SIZE || head.y < 0 || head.y >= GRID_SIZE`. -/
def wallCollision (head : Position) : Bool :=
  head.x < 0 || GRID_SIZE ≤ head.x || head.y < 0 || GRID_SIZE ≤ head.y

/-- Cell lies on the grid: the negation of `wallCollision`, i.e. both
coordinates in [0, GRID_SIZE). -/
def inGrid (p : Position) : Bool :=
  decide (0 ≤ p.x ∧ p.x < GRID_SIZE ∧ 0 ≤ p.y ∧ p.y < GRID_SIZE)

/-- Food placement, from generateFood: repeatedly draw a random cell and
retry while it collides with the snake, returning the first sample free
of the snake. The stream `rand` models the successive draws
`(Math.floor(Math.random()*GRID_SIZE), Math.floor(Math.random()*GRID_SIZE))`;
the hypothesis `h` records that some draw is eventually free, which is
what makes the do-while loop terminate. -/
def generateFood (rand : Nat → Position) (currentSnake : List Position)
    (h : ∃ i, occupies currentSnake (rand i) = false) : Position :=
  rand (Nat.find h)

/-- Result of one execution of the setInterval callback. -/
structure TickResult where
  snake : List Position
  collided : Bool
  ateFood : Bool
  score : Int
  speed : Int
  food : Position
deriving Repr

/-- One simulation tick, from the body of the setInterval callback in
the game loop: compute the new head from the applied direction, report a
collision (leaving the snake unchanged) if it leaves the grid or hits
the pre-move body, otherwise prepend the head; on eating the food add 10
to the score, clamp the decremented speed at MIN_SPEED and place new
food with `gen`, else drop the tail. `gen` abstracts the call
`generateFood(newSnake)`. -/
def tick (gen : List Position → Position) (snake : List Position)
    (dir : Direction) (food : Position) (score speed : Int) : TickResult :=
  let head := moveHead dir snake.headI
  if wallCollision head then
    { snake := snake, collided := true, ateFood := false
      score := score, speed := speed, food := food }
  else if occupies snake head then
    { snake := snake, collided := true, ateFood := false
      score := score, speed := speed, food := food }
  else
    let newSnake := head :: snake
    if head = food then
      { snake := newSnake, collided := false, ateFood := true
        score := score + 10, speed := max MIN_SPEED (speed - SPEED_INCREMENT)
        food := gen newSnake }
    else
      { snake := newSnake.dropLast, collided := false, ateFood := false
        score := score, speed := speed, food := food }

/-- Aggregate of the mutable game values read and written by a tick. -/
structure GameModel where
  snake : List Position
  food : Position
  score : Int
  speed : Int
  highScore : Int
  gameOver : Bool
deriving Repr

/-- One tick applied to the aggregated state: on a collision the
callback calls triggerGameOver, which moves to the gameover state,
keeps the pre-move snake and score, and raises the high score exactly
when the final score strictly exceeds it; otherwise the new snake,
food, score and speed are stored. -/
def stepGame (gen : List Position → Position) (dir : Direction)
    (g : GameModel) : GameModel :=
  if g.gameOver then g
  else
    let r := tick gen g.snake dir g.food g.score g.speed
    if r.collided then
      { g with gameOver := true
               highScore := if g.score > g.highScore then g.score else g.highScore }
    else
      { g with snake := r.snake, food := r.food, score := r.score, speed := r.speed }

/-- Sequence of ticks driven by a list of applied directions, the
playing session between start and game over. -/
def runSession (gen : List Position → Position) (dirs : List Direction)
    (g : GameModel) : GameModel :=
  dirs.foldl (fun st d => stepGame gen d st) g

/-- Direction requested by a key press, from the grouping of cases in
the switch of handleKeyDown (ArrowUp / w / W request UP, and so on);
keys outside the four groups request nothing. -/
def keyRequest (key : String) : Option Direction :=
  if key = "ArrowUp" ∨ key = "w" ∨ key = "W" then some Direction.UP
  else if key = "ArrowDown" ∨ key = "s" ∨ key = "S" then some Direction.DOWN
  else if key = "ArrowLeft" ∨ key = "a" ∨ key = "A" then some Direction.LEFT
  else if key = "ArrowRight" ∨ key = "d" ∨ key = "D" then some Direction.RIGHT
  else none

/-- New value of nextDirection after a key press while playing, from
the switch in handleKeyDown: each direction key sets nextDirection to
its direction unless the current applied direction is its reverse
(e.g. `if (direction !== DOWN) setNextDirection(UP)`). -/
def handleKeyDownNext (direction nextDirection : Direction) (key : String) : Direction :=
  if key = "ArrowUp" ∨ key = "w" ∨ key = "W" then
    if direction ≠ Direction.DOWN then Direction.UP else nextDirection
  else if key = "ArrowDown" ∨ key = "s" ∨ key = "S" then
    if direction ≠ Direction.UP then Direction.DOWN else nextDirection
  else if key = "ArrowLeft" ∨ key = "a" ∨ key = "A" then
    if direction ≠ Direction.RIGHT then Direction.LEFT else nextDirection
  else if key = "ArrowRight" ∨ key = "d" ∨ key = "D" then
    if direction ≠ Direction.LEFT then Direction.RIGHT else nextDirection
  else nextDirection

/-- Minimum swipe distance in pixels, from `const minSwipe = 30`. -/
def minSwipe : Int := 30

/-- Direction requested by a swipe gesture, from the threshold logic of
handleTouchEnd stripped of the reversal filter: the dominant axis is
chosen by comparing absolute deltas and a request exists only past the
minSwipe threshold. -/
def swipeRequest (deltaX deltaY : Int) : Option Direction :=
  if |deltaX| > |deltaY| then
    if deltaX > minSwipe then some Direction.RIGHT
    else if deltaX < -minSwipe then some Direction.LEFT
    else none
  else
    if deltaY > minSwipe then some Direction.DOWN
    else if deltaY < -minSwipe then some Direction.UP
    else none

/-- New value of nextDirection after a swipe, from handleTouchEnd:
horizontal when |deltaX| > |deltaY| else vertical, each branch
accepting the swipe direction only past the minSwipe threshold and
only when the current applied direction is not its reverse. -/
def handleTouchEndNext (direction nextDirection : Direction)
    (deltaX deltaY : Int) : Direction :=
  if |deltaX| > |deltaY| then
    if deltaX > minSwipe ∧ direction ≠ Direction.LEFT then Direction.RIGHT
    else if deltaX < -minSwipe ∧ direction ≠ Direction.RIGHT then Direction.LEFT
    else nextDirection
  else
    if deltaY > minSwipe ∧ direction ≠ Direction.UP then Direction.DOWN
    else if deltaY < -minSwipe ∧ direction ≠ Direction.DOWN then Direction.UP
    else nextDirection

/-- New value of nextDirection after an on-screen button press, from
handleDirectionButton: ignored outside the playing state, otherwise the
pressed direction is stored unless the current applied direction is its
opposite. -/
def handleDirectionButtonNext (gs : GameState)
    (direction nextDirection newDirection : Direction) : Direction :=
  if gs ≠ GameState.playing then nextDirection
  else if direction ≠ opposite newDirection then newDirection
  else nextDirection

/-- Aggregate of the component state hooks touched by startGame. -/
structure AppState where
  gameState : GameState
  snake : List Position
  food : Position
  direction : Direction
  nextDirection : Direction
  score : Int
  speed : Int
  highScore : Int
  aiTip : String
  aiFeedback : String
deriving Repr

/-- Snake reset value, from `const initialSnake = [{ x: 10, y: 10 }]`. -/
def initialSnake : List Position := [⟨10, 10⟩]

/-- Start command, from startGame: reset the snake to the single start
segment, place food avoiding it, set both direction values to RIGHT,
zero the score, restore the saved speed preference (INITIAL_SPEED when
none is stored), clear both AI strings and enter the playing state.
`savedSpeed` models `localStorage.getItem(snake_speed)` after parseInt,
and `rand` with `h` model the sampling inside generateFood. -/
def startGame (rand : Nat → Position)
    (h : ∃ i, occupies initialSnake (rand i) = false)
    (savedSpeed : Option Int) (s : AppState) : AppState :=
  { s with snake := initialSnake
           food := generateFood rand initialSnake h
           direction := Direction.RIGHT
           nextDirection := Direction.RIGHT
           score := 0
           speed := savedSpeed.getD INITIAL_SPEED
           aiTip := ""
           aiFeedback := ""
           gameState := GameState.playing }

/-- Shape of the JSON value produced by the AI route handler. -/
structure ApiResponse where
  status : Nat
  success : Option Bool
  content : Option String
  error : Option String
  fallback : Option String
  rtype : Option String
deriving DecidableEq, Repr

/-- Success path of the POST handler of the AI route, from the switch
on the request type: the cases tip, feedback and theme each build a
prompt, run the chat completion and answer 200 with the trimmed
completion text, while the default case answers 400 with an error
field and no content. The oracle `complete` stands for the text the
chat completion returns for the prompt built by the branch; prompt
wording, token limits and the catch path (500 with a fallback string)
are outside this model. -/
def postRoute (complete : String → String) (reqType : String) : ApiResponse :=
  if reqType = "tip" then
    { status := 200, success := some true
      content := some (complete "tip").trim
      error := none, fallback := none, rtype := some reqType }
  else if reqType = "feedback" then
    { status := 200, success := some true
      content := some (complete "feedback").trim
      error := none, fallback := none, rtype := some reqType }
  else if reqType = "theme" then
    { status := 200, success := some true
      content := some (complete "theme").trim
      error := none, fallback := none, rtype := some reqType }
  else
    { status := 400, success := none, content := none
      error := some "Invalid request type", fallback := none, rtype := none }

/-- Deterministic enumeration of the grid used to instantiate the
random stream in witnesses: sample `i` is the cell (i mod 20, i div 20
mod 20), so every grid cell occurs in the stream. -/
def enumRand (i : Nat) : Position :=
  ⟨(i % 20 : Nat), (i / 20 % 20 : Nat)⟩

/-- Finite set of all grid cells. -/
def gridFinset : Finset Position :=
  (Finset.Icc (0 : Int) 19 ×ˢ Finset.Icc (0 : Int) 19).image fun q => ⟨q.1, q.2⟩

/-- The some-based collision test agrees with list membership. -/
theorem occupies_iff_mem (s : List Position) (p : Position) :
    occupies s p = true ↔ p ∈ s := by
  simp only [occupies, List.any_eq_true, Bool.and_eq_true, beq_iff_eq]
  constructor
  · rintro ⟨q, hq, hx, hy⟩
    have hqp : q = p := by
      cases q
      cases p
      simp_all
    exact hqp ▸ hq
  · intro hp
    exact ⟨p, hp, rfl, rfl⟩

/-- Membership in the grid Finset is the inGrid bound check. -/
theorem mem_gridFinset (p : Position) : p ∈ gridFinset ↔ inGrid p = true := by
  simp only [gridFinset, Finset.mem_image, Finset.mem_product, Finset.mem_Icc,
    inGrid, GRID_SIZE, decide_eq_true_eq]
  constructor
  · rintro ⟨⟨a, b⟩, ⟨⟨ha0, ha1⟩, ⟨hb0, hb1⟩⟩, rfl⟩
    exact ⟨ha0, show a < 20 by omega, hb0, show b < 20 by omega⟩
  · rintro ⟨h0, h1, h2, h3⟩
    exact ⟨(p.x, p.y), ⟨⟨h0, by omega⟩, ⟨h2, by omega⟩⟩, rfl⟩

/-- The grid holds GRID_SIZE squared cells. -/
theorem gridFinset_card : gridFinset.card = 400 := by
  have hinj : Function.Injective fun q : Int × Int => Position.mk q.1 q.2 := by
    rintro ⟨a, b⟩ ⟨c, d⟩ h
    simpa [Position.mk.injEq, Prod.ext_iff] using h
  rw [gridFinset, Finset.card_image_of_injective _ hinj, Finset.card_product,
    Int.card_Icc]
  rfl

/-- Every sample of the enumeration stream lies on the grid. -/
theorem enumRand_inGrid (i : Nat) : inGrid (enumRand i) = true := by
  simp only [enumRand, inGrid, GRID_SIZE, decide_eq_true_eq]
  refine ⟨Int.ofNat_nonneg _, ?_, Int.ofNat_nonneg _, ?_⟩
  · exact_mod_cast Nat.mod_lt _ (by omega)
  · exact_mod_cast Nat.mod_lt _ (by omega)

/-- The enumeration stream reaches every grid cell. -/
theorem enumRand_fair (p : Position) (hp : inGrid p = true) :
    ∃ i, enumRand i = p := by
  obtain ⟨px, py⟩ := p
  simp only [inGrid, GRID_SIZE, decide_eq_true_eq] at hp
  obtain ⟨h0, h1, h2, h3⟩ := hp
  refine ⟨px.toNat + 20 * py.toNat, ?_⟩
  have hm : (px.toNat + 20 * py.toNat) % 20 = px.toNat := by omega
  have hd : (px.toNat + 20 * py.toNat) / 20 % 20 = py.toNat := by omega
  simp only [enumRand, hm, hd, Position.mk.injEq]
  constructor <;> omega

/-- Some sample of the enumeration stream misses the start segment. -/
theorem initialSnake_enumRand_free :
    ∃ i, occupies initialSnake (enumRand i) = false :=
  ⟨0, by decide⟩

/-- A tick whose new head hits a wall or the pre-move body reports a
collision and keeps the snake unchanged. -/
theorem tick_collided_of (gen : List Position → Position)
    (snake : List Position) (dir : Direction) (food : Position)
    (score speed : Int)
    (h : wallCollision (moveHead dir snake.headI) = true ∨
      occupies snake (moveHead dir snake.headI) = true) :
    (tick gen snake dir food score speed).collided = true ∧
    (tick gen snake dir food score speed).snake = snake := by
  unfold tick
  simp only []
  split_ifs with h1 h2
  · exact ⟨rfl, rfl⟩
  · exact ⟨rfl, rfl⟩
  · rcases h with h | h
    · exact absurd h h1
    · exact absurd h h2
  · rcases h with h | h
    · exact absurd h h1
    · exact absurd h h2

/-- A collision during a tick moves the aggregated state to game over,
freezing the snake and the score and raising the high score exactly when
the score strictly exceeds it. -/
theorem stepGame_of_collided (gen : List Position → Position)
    (dir : Direction) (g : GameModel) (hover : g.gameOver = false)
    (hc : (tick gen g.snake dir g.food g.score g.speed).collided = true) :
    (stepGame gen dir g).gameOver = true ∧
    (stepGame gen dir g).snake = g.snake ∧
    (stepGame gen dir g).score = g.score ∧
    (stepGame gen dir g).highScore
      = (if g.score > g.highScore then g.score else g.highScore) := by
  unfold stepGame
  simp [hover, hc]

/-- C1: for every tick that completes without a collision, ateFood holds
exactly when the new head is the food cell, and the snake length after
the tick is the pre-tick length plus one when ateFood holds and is the
pre-tick length otherwise. -/
theorem C1_tick_length (gen : List Position → Position)
    (snake : List Position) (dir : Direction) (food : Position)
    (score speed : Int) (hne : snake ≠ [])
    (hnc : (tick gen snake dir food score speed).collided = false) :
    (tick gen snake dir food score speed).ateFood
      = decide (moveHead dir snake.headI = food) ∧
    (tick gen snake dir food score speed).snake.length
      = (if (tick gen snake dir food score speed).ateFood then
          snake.length + 1 else snake.length) := by
  unfold tick at hnc ⊢
  simp only [] at hnc ⊢
  by_cases h1 : wallCollision (moveHead dir snake.headI) = true
  · simp [h1] at hnc
  · by_cases h2 : occupies snake (moveHead dir snake.headI) = true
    · simp [h1, h2] at hnc
    · by_cases h3 : moveHead dir snake.headI = food
      · rw [if_neg h1, if_neg h2, if_pos h3]
        simp [h3]
      · rw [if_neg h1, if_neg h2, if_neg h3]
        simp [h3, List.length_dropLast]

/-- C1 witness: a concrete non-colliding tick with no food ahead keeps
the length at one. -/
theorem C1_tick_length_witness :
    ([⟨10, 10⟩] : List Position) ≠ [] ∧
    (tick (fun _ => ⟨0, 0⟩) [⟨10, 10⟩] Direction.RIGHT ⟨15, 10⟩ 0 150).collided
      = false ∧
    ((tick (fun _ => ⟨0, 0⟩) [⟨10, 10⟩] Direction.RIGHT ⟨15, 10⟩ 0 150).ateFood
      = decide (moveHead Direction.RIGHT ([⟨10, 10⟩] : List Position).headI = ⟨15, 10⟩) ∧
    (tick (fun _ => ⟨0, 0⟩) [⟨10, 10⟩] Direction.RIGHT ⟨15, 10⟩ 0 150).snake.length
      = (if (tick (fun _ => ⟨0, 0⟩) [⟨10, 10⟩] Direction.RIGHT ⟨15, 10⟩ 0 150).ateFood
          then ([⟨10, 10⟩] : List Position).length + 1
          else ([⟨10, 10⟩] : List Position).length)) :=
  ⟨by decide, by decide,
    C1_tick_length (fun _ => ⟨0, 0⟩) [⟨10, 10⟩] Direction.RIGHT ⟨15, 10⟩ 0 150
      (by decide) (by decide)⟩

/-- C2: the self-collision check runs against the pre-move body, so a
tick whose new head equals any existing segment, the current tail cell
included, reports a collision, keeps the snake unchanged and ends the
game. -/
theorem C2_self_collision (gen : List Position → Position) (dir : Direction)
    (g : GameModel) (hover : g.gameOver = false)
    (hself : occupies g.snake (moveHead dir g.snake.headI) = true) :
    (tick gen g.snake dir g.food g.score g.speed).collided = true ∧
    (tick gen g.snake dir g.food g.score g.speed).snake = g.snake ∧
    (stepGame gen dir g).gameOver = true ∧
    (stepGame gen dir g).snake = g.snake := by
  have ht := tick_collided_of gen g.snake dir g.food g.score g.speed (Or.inr hself)
  have hs := stepGame_of_collided gen dir g hover ht.1
  exact ⟨ht.1, ht.2, hs.1, hs.2.1⟩

/-- C2 witness: a four-segment loop whose head steps onto the current
tail cell, which would vacate this very tick, still collides. -/
theorem C2_self_collision_witness :
    occupies [⟨0, 0⟩, ⟨1, 0⟩, ⟨1, 1⟩, ⟨0, 1⟩]
      (moveHead Direction.DOWN ([⟨0, 0⟩, ⟨1, 0⟩, ⟨1, 1⟩, ⟨0, 1⟩] : List Position).headI)
      = true ∧
    (tick (fun _ => ⟨5, 5⟩) [⟨0, 0⟩, ⟨1, 0⟩, ⟨1, 1⟩, ⟨0, 1⟩]
      Direction.DOWN ⟨7, 7⟩ 30 150).collided = true ∧
    (stepGame (fun _ => ⟨5, 5⟩) Direction.DOWN
      ⟨[⟨0, 0⟩, ⟨1, 0⟩, ⟨1, 1⟩, ⟨0, 1⟩], ⟨7, 7⟩, 30, 150, 0, false⟩).gameOver
      = true := by
  have h := C2_self_collision (fun _ => ⟨5, 5⟩) Direction.DOWN
    ⟨[⟨0, 0⟩, ⟨1, 0⟩, ⟨1, 1⟩, ⟨0, 1⟩], ⟨7, 7⟩, 30, 150, 0, false⟩
    (by decide) (by decide)
  exact ⟨by decide, h.1, h.2.2.1⟩

/-- C3: a tick whose new head leaves [0, GRID_SIZE) on either axis
reports a collision, returns the pre-move body unchanged and carries it
into the game-over state. -/
theorem C3_wall_collision (gen : List Position → Position) (dir : Direction)
    (g : GameModel) (hover : g.gameOver = false)
    (hwall : (moveHead dir g.snake.headI).x < 0 ∨
      GRID_SIZE ≤ (moveHead dir g.snake.headI).x ∨
      (moveHead dir g.snake.headI).y < 0 ∨
      GRID_SIZE ≤ (moveHead dir g.snake.headI).y) :
    (tick gen g.snake dir g.food g.score g.speed).collided = true ∧
    (tick gen g.snake dir g.food g.score g.speed).snake = g.snake ∧
    (stepGame gen dir g).gameOver = true ∧
    (stepGame gen dir g).snake = g.snake := by
  have hw : wallCollision (moveHead dir g.snake.headI) = true := by
    unfold wallCollision
    simp only [Bool.or_eq_true, decide_eq_true_eq]
    tauto
  have ht := tick_collided_of gen g.snake dir g.food g.score g.speed (Or.inl hw)
  have hs := stepGame_of_collided gen dir g hover ht.1
  exact ⟨ht.1, ht.2, hs.1, hs.2.1⟩

/-- C4: when the occupied cells are strictly fewer than the
GRID_SIZE * GRID_SIZE cells of the grid, a random stream that draws
grid cells and eventually reaches every grid cell makes the retry loop
of generateFood terminate, and the returned food cell lies on the grid
and equals no occupied cell, so food is never inside the snake body
right after placement. -/
theorem C4_generateFood_free (rand : Nat → Position) (snake : List Position)
    (hg : ∀ i, inGrid (rand i) = true)
    (hfair : ∀ p, inGrid p = true → ∃ i, rand i = p)
    (hcard : (snake.toFinset.card : Int) < GRID_SIZE * GRID_SIZE) :
    ∃ h : ∃ i, occupies snake (rand i) = false,
      inGrid (generateFood rand snake h) = true ∧
      occupies snake (generateFood rand snake h) = false := by
  have hcard400 : snake.toFinset.card < 400 := by
    simp only [GRID_SIZE] at hcard
    exact_mod_cast hcard
  have hex : ∃ p, inGrid p = true ∧ occupies snake p = false := by
    by_contra hc
    push_neg at hc
    have hsub : gridFinset ⊆ snake.toFinset := by
      intro p hp
      have hpg := (mem_gridFinset p).mp hp
      have hocc : occupies snake p = true := by
        have := hc p hpg
        cases hb : occupies snake p with
        | false => exact absurd hb this
        | true => rfl
      exact List.mem_toFinset.mpr ((occupies_iff_mem snake p).mp hocc)
    have hle := Finset.card_le_card hsub
    rw [gridFinset_card] at hle
    omega
  obtain ⟨p, hpg, hpo⟩ := hex
  obtain ⟨i, hi⟩ := hfair p hpg
  have h : ∃ i, occupies snake (rand i) = false := ⟨i, by rw [hi]; exact hpo⟩
  exact ⟨h, hg (Nat.find h), Nat.find_spec h⟩

/-- C4 witness: placement over the enumeration stream for the single
start segment lands on the grid and off the snake. -/
theorem C4_generateFood_free_witness :
    ((initialSnake.toFinset.card : Int) < GRID_SIZE * GRID_SIZE) ∧
    ∃ h : ∃ i, occupies initialSnake (enumRand i) = false,
      inGrid (generateFood enumRand initialSnake h) = true ∧
      occupies initialSnake (generateFood enumRand initialSnake h) = false :=
  ⟨by decide,
    C4_generateFood_free enumRand initialSnake enumRand_inGrid enumRand_fair
      (by decide)⟩

/-- C6: starting from a speed no lower than MIN_SPEED, a whole session
of ticks never increases the speed and never lets it drop below
MIN_SPEED; a single tick that eats food sets it to the decremented
value clamped at MIN_SPEED and a tick that does not eat leaves it
unchanged. -/
theorem C6_speed_monotone (gen : List Position → Position)
    (dirs : List Direction) (g : GameModel) (h : MIN_SPEED ≤ g.speed) :
    (runSession gen dirs g).speed ≤ g.speed ∧
    MIN_SPEED ≤ (runSession gen dirs g).speed ∧
    ∀ dir : Direction,
      ((tick gen g.snake dir g.food g.score g.speed).ateFood = true →
        (tick gen g.snake dir g.food g.score g.speed).speed
          = max MIN_SPEED (g.speed - SPEED_INCREMENT)) ∧
      ((tick gen g.snake dir g.food g.score g.speed).ateFood = false →
        (tick gen g.snake dir g.food g.score g.speed).speed = g.speed) := by
  have htick : ∀ (snake : List Position) (dir : Direction) (food : Position)
      (score speed : Int),
      ((tick gen snake dir food score speed).ateFood = true →
        (tick gen snake dir food score speed).speed
          = max MIN_SPEED (speed - SPEED_INCREMENT)) ∧
      ((tick gen snake dir food score speed).ateFood = false →
        (tick gen snake dir food score speed).speed = speed) := by
    intro snake dir food score speed
    unfold tick
    simp only []
    split_ifs with h1 h2 h3
    · exact ⟨fun hh => absurd hh (by simp), fun _ => rfl⟩
    · exact ⟨fun hh => absurd hh (by simp), fun _ => rfl⟩
    · exact ⟨fun _ => rfl, fun hh => absurd hh (by simp)⟩
    · exact ⟨fun hh => absurd hh (by simp), fun _ => rfl⟩
  have hstep : ∀ (d : Direction) (st : GameModel), MIN_SPEED ≤ st.speed →
      (stepGame gen d st).speed ≤ st.speed ∧
      MIN_SPEED ≤ (stepGame gen d st).speed := by
    intro d st hst
    rcases htick st.snake d st.food st.score st.speed with ⟨heat, hnoeat⟩
    simp only [stepGame]
    split_ifs with h1 h2 h3
    · exact ⟨le_refl _, hst⟩
    · exact ⟨le_refl _, hst⟩
    · exact ⟨le_refl _, hst⟩
    · cases hae : (tick gen st.snake d st.food st.score st.speed).ateFood with
      | true =>
        simp only [heat hae]
        refine ⟨max_le hst ?_, le_max_left _ _⟩
        have h5 : (0 : Int) < SPEED_INCREMENT := by decide
        omega
      | false =>
        simp only [hnoeat hae]
        exact ⟨le_refl _, hst⟩
  have hrun : ∀ (ds : List Direction) (st : GameModel), MIN_SPEED ≤ st.speed →
      (runSession gen ds st).speed ≤ st.speed ∧
      MIN_SPEED ≤ (runSession gen ds st).speed := by
    intro ds
    induction ds with
    | nil => exact fun st hst => ⟨le_refl _, hst⟩
    | cons d ds ih =>
      intro st hst
      have h1 := hstep d st hst
      have h2 := ih (stepGame gen d st) h1.2
      exact ⟨le_trans h2.1 h1.1, h2.2⟩
  exact ⟨(hrun dirs g h).1, (hrun dirs g h).2,
    fun dir => htick g.snake dir g.food g.score g.speed⟩

/-- C6 witness: a two-tick session from the start state at speed 150
stays at most 150 and at least MIN_SPEED. -/
theorem C6_speed_monotone_witness :
    MIN_SPEED ≤ (150 : Int) ∧
    (runSession (fun _ => ⟨5, 5⟩) [Direction.RIGHT, Direction.DOWN]
      ⟨[⟨10, 10⟩], ⟨11, 10⟩, 0, 150, 0, false⟩).speed ≤ 150 ∧
    MIN_SPEED ≤ (runSession (fun _ => ⟨5, 5⟩) [Direction.RIGHT, Direction.DOWN]
      ⟨[⟨10, 10⟩], ⟨11, 10⟩, 0, 150, 0, false⟩).speed := by
  have h := C6_speed_monotone (fun _ => ⟨5, 5⟩) [Direction.RIGHT, Direction.DOWN]
    ⟨[⟨10, 10⟩], ⟨11, 10⟩, 0, 150, 0, false⟩ (by decide)
  exact ⟨by decide, h.1, h.2.1⟩

/-- C5: for each of the three input adapters, a request whose direction
is the reverse of the current applied direction leaves nextDirection
unchanged, and any other request overwrites nextDirection with the
requested direction; `keyRequest` and `swipeRequest` decode which
direction a key press or a swipe gesture requests. -/
theorem C5_input_reversal (d n r : Direction) (k : String) (dx dy : Int)
    (hk : keyRequest k = some r) (hs : swipeRequest dx dy = some r) :
    handleKeyDownNext d n k = (if r = opposite d then n else r) ∧
    handleTouchEndNext d n dx dy = (if r = opposite d then n else r) ∧
    handleDirectionButtonNext GameState.playing d n r
      = (if r = opposite d then n else r) := by
  refine ⟨?_, ?_, ?_⟩
  · unfold keyRequest at hk
    unfold handleKeyDownNext
    split_ifs at hk with h1 h2 h3 h4
    · simp only [Option.some.injEq] at hk
      subst hk
      rw [if_pos h1]
      cases d <;> simp [opposite]
    · simp only [Option.some.injEq] at hk
      subst hk
      rw [if_neg h1, if_pos h2]
      cases d <;> simp [opposite]
    · simp only [Option.some.injEq] at hk
      subst hk
      rw [if_neg h1, if_neg h2, if_pos h3]
      cases d <;> simp [opposite]
    · simp only [Option.some.injEq] at hk
      subst hk
      rw [if_neg h1, if_neg h2, if_neg h3, if_pos h4]
      cases d <;> simp [opposite]
  · unfold swipeRequest at hs
    unfold handleTouchEndNext
    simp only [minSwipe] at hs ⊢
    split_ifs at hs with ha hb hc hd he
    · simp only [Option.some.injEq] at hs
      subst hs
      have hnb : ¬ (dx < -(30 : Int)) := by omega
      rw [if_pos ha]
      cases d <;> simp [opposite, hb, hnb]
    · simp only [Option.some.injEq] at hs
      subst hs
      rw [if_pos ha]
      cases d <;> simp [opposite, hb, hc]
    · simp only [Option.some.injEq] at hs
      subst hs
      have hnd : ¬ (dy < -(30 : Int)) := by omega
      rw [if_neg ha]
      cases d <;> simp [opposite, hd, hnd]
    · simp only [Option.some.injEq] at hs
      subst hs
      rw [if_neg ha]
      cases d <;> simp [opposite, hd, he]
  · unfold handleDirectionButtonNext
    rw [if_neg (by simp)]
    cases d <;> cases r <;> simp [opposite]

/-- C5 witness: with the applied direction RIGHT, the w key, an upward
swipe and the UP button all set nextDirection to UP. -/
theorem C5_input_reversal_witness :
    keyRequest "w" = some Direction.UP ∧
    swipeRequest 0 (-40) = some Direction.UP ∧
    (handleKeyDownNext Direction.RIGHT Direction.RIGHT "w"
      = (if Direction.UP = opposite Direction.RIGHT then Direction.RIGHT
         else Direction.UP) ∧
    handleTouchEndNext Direction.RIGHT Direction.RIGHT 0 (-40)
      = (if Direction.UP = opposite Direction.RIGHT then Direction.RIGHT
         else Direction.UP) ∧
    handleDirectionButtonNext GameState.playing Direction.RIGHT
      Direction.RIGHT Direction.UP
      = (if Direction.UP = opposite Direction.RIGHT then Direction.RIGHT
         else Direction.UP)) :=
  ⟨by decide, by decide,
    C5_input_reversal Direction.RIGHT Direction.RIGHT Direction.UP "w" 0 (-40)
      (by decide) (by decide)⟩

/-- C7: a collision tick while playing raises the stored high score to
the final score exactly when the final score strictly exceeds the prior
high score and keeps it unchanged otherwise, freezing snake and score. -/
theorem C7_high_score_update (gen : List Position → Position)
    (dir : Direction) (g : GameModel) (hover : g.gameOver = false)
    (hc : (tick gen g.snake dir g.food g.score g.speed).collided = true) :
    (stepGame gen dir g).highScore = max g.score g.highScore ∧
    (g.highScore < g.score → (stepGame gen dir g).highScore = g.score) ∧
    (g.score ≤ g.highScore → (stepGame gen dir g).highScore = g.highScore) ∧
    (stepGame gen dir g).score = g.score ∧
    (stepGame gen dir g).snake = g.snake ∧
    (stepGame gen dir g).gameOver = true := by
  have hs := stepGame_of_collided gen dir g hover hc
  rw [hs.2.2.2]
  refine ⟨?_, ?_, ?_, hs.2.2.1, hs.2.1, hs.1⟩
  · rcases le_or_lt g.score g.highScore with hle | hlt
    · rw [if_neg (not_lt.mpr hle), max_eq_right hle]
    · rw [if_pos hlt, max_eq_left (le_of_lt hlt)]
  · intro hlt
    rw [if_pos hlt]
  · intro hle
    rw [if_neg (not_lt.mpr hle)]

/-- C7 witness: a wall collision at score 30 beats a prior high score
of 20 and leaves a prior high score of 20 as the new value 30. -/
theorem C7_high_score_update_witness :
    (tick (fun _ => ⟨5, 5⟩) [⟨0, 10⟩] Direction.LEFT ⟨7, 7⟩ 30 150).collided
      = true ∧
    (stepGame (fun _ => ⟨5, 5⟩) Direction.LEFT
      ⟨[⟨0, 10⟩], ⟨7, 7⟩, 30, 150, 20, false⟩).highScore = max 30 20 := by
  have h := C7_high_score_update (fun _ => ⟨5, 5⟩) Direction.LEFT
    ⟨[⟨0, 10⟩], ⟨7, 7⟩, 30, 150, 20, false⟩ (by decide) (by decide)
  exact ⟨by decide, h.1⟩

/-- C8: every start command resets the snake to the single segment at
(10, 10), sets direction and nextDirection to RIGHT, zeroes the score,
restores the saved speed preference or INITIAL_SPEED when none is
saved, enters the playing state, and places a fresh food cell on the
grid and off the snake. -/
theorem C8_startGame_reset (rand : Nat → Position) (savedSpeed : Option Int)
    (s : AppState) (hg : ∀ i, inGrid (rand i) = true)
    (h : ∃ i, occupies initialSnake (rand i) = false) :
    (startGame rand h savedSpeed s).gameState = GameState.playing ∧
    (startGame rand h savedSpeed s).snake = [⟨10, 10⟩] ∧
    (startGame rand h savedSpeed s).direction = Direction.RIGHT ∧
    (startGame rand h savedSpeed s).nextDirection = Direction.RIGHT ∧
    (startGame rand h savedSpeed s).score = 0 ∧
    (startGame rand h savedSpeed s).speed = savedSpeed.getD INITIAL_SPEED ∧
    inGrid (startGame rand h savedSpeed s).food = true ∧
    occupies (startGame rand h savedSpeed s).snake
      (startGame rand h savedSpeed s).food = false := by
  refine ⟨rfl, rfl, rfl, rfl, rfl, rfl, hg (Nat.find h), Nat.find_spec h⟩

/-- C8 witness: starting from a menu state with a saved speed of 120
produces the documented reset values and a food cell off the snake. -/
theorem C8_startGame_reset_witness :
    (startGame enumRand initialSnake_enumRand_free (some 120)
      ⟨GameState.menu, [⟨3, 3⟩, ⟨4, 3⟩], ⟨9, 9⟩, Direction.LEFT, Direction.UP,
        40, 90, 70, "tip text", "feedback text"⟩).score = 0 ∧
    (startGame enumRand initialSnake_enumRand_free (some 120)
      ⟨GameState.menu, [⟨3, 3⟩, ⟨4, 3⟩], ⟨9, 9⟩, Direction.LEFT, Direction.UP,
        40, 90, 70, "tip text", "feedback text"⟩).speed = (some 120).getD INITIAL_SPEED ∧
    occupies (startGame enumRand initialSnake_enumRand_free (some 120)
      ⟨GameState.menu, [⟨3, 3⟩, ⟨4, 3⟩], ⟨9, 9⟩, Direction.LEFT, Direction.UP,
        40, 90, 70, "tip text", "feedback text"⟩).snake
      (startGame enumRand initialSnake_enumRand_free (some 120)
        ⟨GameState.menu, [⟨3, 3⟩, ⟨4, 3⟩], ⟨9, 9⟩, Direction.LEFT, Direction.UP,
          40, 90, 70, "tip text", "feedback text"⟩).food = false := by
  have h := C8_startGame_reset enumRand (some 120)
    ⟨GameState.menu, [⟨3, 3⟩, ⟨4, 3⟩], ⟨9, 9⟩, Direction.LEFT, Direction.UP,
      40, 90, 70, "tip text", "feedback text"⟩
    enumRand_inGrid initialSnake_enumRand_free
  exact ⟨h.2.2.2.2.1, h.2.2.2.2.2.1, h.2.2.2.2.2.2.2⟩

/-- C9 counterexample: the request type "theme" is neither "tip" nor
"feedback", yet the route does not answer with a client error and no
content: on the success path it answers 200 with the completion text. -/
theorem C9_theme_not_rejected :
    ("theme" : String) ≠ "tip" ∧ ("theme" : String) ≠ "feedback" ∧
    (postRoute (fun _ => "Verdant Maze") "theme").status = 200 ∧
    (postRoute (fun _ => "Verdant Maze") "theme").content
      = some ("Verdant Maze".trim) ∧
    ¬ ((postRoute (fun _ => "Verdant Maze") "theme").status = 400 ∧
       (postRoute (fun _ => "Verdant Maze") "theme").content = none) := by
  refine ⟨by decide, by decide, rfl, rfl, ?_⟩
  intro hcl
  simp [postRoute] at hcl

/-- C9 amended: for every request whose type is none of "tip",
"feedback" and "theme", the route answers 400 with an error field and
no content string. -/
theorem C9_invalid_type_rejected (complete : String → String) (t : String)
    (h1 : t ≠ "tip") (h2 : t ≠ "feedback") (h3 : t ≠ "theme") :
    (postRoute complete t).status = 400 ∧
    (postRoute complete t).content = none ∧
    (postRoute complete t).error = some "Invalid request type" := by
  unfold postRoute
  rw [if_neg h1, if_neg h2, if_neg h3]
  exact ⟨rfl, rfl, rfl⟩

/-- C9 amended witness: an unknown type such as "joke" is rejected with
status 400 and no content. -/
theorem C9_invalid_type_rejected_witness :
    ("joke" : String) ≠ "tip" ∧ ("joke" : String) ≠ "feedback" ∧
    ("joke" : String) ≠ "theme" ∧
    ((postRoute (fun _ => "text") "joke").status = 400 ∧
     (postRoute (fun _ => "text") "joke").content = none ∧
     (postRoute (fun _ => "text") "joke").error = some "Invalid request type") :=
  ⟨by decide, by decide, by decide,
    C9_invalid_type_rejected (fun _ => "text") "joke"
      (by decide) (by decide) (by decide)⟩

/-- C10: every start command clears both AI strings, so a new playing
session shows no tip or feedback text carried over from the menu or a
previous game over. -/
theorem C10_startGame_clears_ai (rand : Nat → Position)
    (h : ∃ i, occupies initialSnake (rand i) = false)
    (savedSpeed : Option Int) (s : AppState) :
    (startGame rand h savedSpeed s).aiTip = "" ∧
    (startGame rand h savedSpeed s).aiFeedback = "" :=
  ⟨rfl, rfl⟩

/-- C10 witness: starting from a state carrying AI text leaves both
strings empty. -/
theorem C10_startGame_clears_ai_witness :
    (startGame enumRand initialSnake_enumRand_free none
      ⟨GameState.gameover, [⟨3, 3⟩], ⟨9, 9⟩, Direction.LEFT, Direction.UP,
        40, 90, 70, "old tip", "old feedback"⟩).aiTip = "" ∧
    (startGame enumRand initialSnake_enumRand_free none
      ⟨GameState.gameover, [⟨3, 3⟩], ⟨9, 9⟩, Direction.LEFT, Direction.UP,
        40, 90, 70, "old tip", "old feedback"⟩).aiFeedback = "" :=
  C10_startGame_clears_ai enumRand initialSnake_enumRand_free none
    ⟨GameState.gameover, [⟨3, 3⟩], ⟨9, 9⟩, Direction.LEFT, Direction.UP,
      40, 90, 70, "old tip", "old feedback"⟩

/-- C3 witness: from the left edge a LEFT move puts the head at x = -1,
which collides and preserves the body into game over. -/
theorem C3_wall_collision_witness :
    (moveHead Direction.LEFT ([⟨0, 10⟩] : List Position).headI).x < 0 ∧
    (tick (fun _ => ⟨5, 5⟩) [⟨0, 10⟩] Direction.LEFT ⟨7, 7⟩ 0 150).collided
      = true ∧
    (stepGame (fun _ => ⟨5, 5⟩) Direction.LEFT
      ⟨[⟨0, 10⟩], ⟨7, 7⟩, 0, 150, 0, false⟩).snake = [⟨0, 10⟩] := by
  have h := C3_wall_collision (fun _ => ⟨5, 5⟩) Direction.LEFT
    ⟨[⟨0, 10⟩], ⟨7, 7⟩, 0, 150, 0, false⟩
    (by decide) (Or.inl (by decide))
  exact ⟨by decide, h.1, h.2.2.2⟩

end Snake
